import Mathlib

/-!
# cel2js — verification of the value runtime and code generator

A shallow embedding of the cel2js compilation pipeline and value runtime
(`src/index.ts`, `src/codegen/transformer.ts`, `src/transpiler.ts`).

Conventions of the embedding:
* The host's `undefined` — the internal error sentinel — is `Option.none`;
  a present value is `Option.some`.
* Host bigints are `Int`; the `CelUint` wrapper is the `vuint` constructor.
* Host doubles are modelled by `Dbl`: a finite double is carried as its exact
  rational value (the two IEEE zeroes are conflated), plus `inf`, `ninf`, `nan`.
  Conversion from bigint (`Number(b)`) and arithmetic round to 53 significant
  bits with ties to even, overflowing to the infinities, exactly as binary64.
* Host objects are compared by reference in `===`/`SameValueZero`; the model
  has no object identity, so object-shaped values (wrappers, bytes, lists,
  maps, records, timestamps, durations) are treated as distinct references,
  which is exact for freshly constructed values.
* JS `Map`s are insertion-ordered association lists; `Map.set` replaces the
  value (keeping the original key) on a `SameValueZero` hit and appends
  otherwise.
-/

namespace Cel2Js

/-- Model of a host double (IEEE-754 binary64): a finite value carried as an
exact rational, the two infinities, and NaN. -/
inductive Dbl where
  | fin (q : ℚ)
  | inf
  | ninf
  | nan
deriving DecidableEq, Repr

/-- The CEL runtime value domain (`CelValue` in `runtime/types.ts` together
with the host shapes the runtime accepts): null, bool, int (bigint), uint
(`CelUint` wrapper), double, string, bytes (`Uint8Array`), list (`Array`),
map (`Map`), plain host record (binding objects without a `__type` tag),
type value (`CelType`), timestamp and duration. -/
inductive CelVal where
  | vnull
  | vbool (b : Bool)
  | vint (i : ℤ)
  | vuint (u : ℤ)
  | vdouble (d : Dbl)
  | vstr (s : String)
  | vbytes (bs : List ℕ)
  | vlist (xs : List CelVal)
  | vmap (es : List (CelVal × CelVal))
  | vobj (fs : List (String × CelVal))
  | vtype (name : String)
  | vts (seconds : ℤ) (nanos : ℤ)
  | vdur (seconds : ℤ) (nanos : ℤ)

/-- A JS value as seen by the generated code: either a CEL value or
`undefined`, the error sentinel. -/
abbrev JsVal := Option CelVal

-- ── Constants (src/index.ts) ─────────────────────────────────────────────

def INT64_MIN : ℤ := -(2 ^ 63)
def INT64_MAX : ℤ := 2 ^ 63 - 1
def UINT64_MAX : ℤ := 2 ^ 64 - 1

/-- `inInt64Range` from src/index.ts. -/
def inInt64Range (v : ℤ) : Bool := INT64_MIN ≤ v ∧ v ≤ INT64_MAX

/-- `inUint64Range` from src/index.ts. -/
def inUint64Range (v : ℤ) : Bool := 0 ≤ v ∧ v ≤ UINT64_MAX

-- ── Type probes (src/index.ts) ───────────────────────────────────────────

def isInt : CelVal → Bool
  | .vint _ => true
  | _ => false

def isCelUint : CelVal → Bool
  | .vuint _ => true
  | _ => false

def isDouble : CelVal → Bool
  | .vdouble _ => true
  | _ => false

def isStr : CelVal → Bool
  | .vstr _ => true
  | _ => false

def isBool : CelVal → Bool
  | .vbool _ => true
  | _ => false

/-- `isNumeric` from src/index.ts: int, uint or double. -/
def isNumeric (v : CelVal) : Bool := isInt v || isCelUint v || isDouble v

-- ── The binary64 model ───────────────────────────────────────────────────

/-- Floor base-2 logarithm with explicit fuel (structural recursion, so the
kernel can evaluate it; the fuel `n` always suffices). -/
def log2Fuel : ℕ → ℕ → ℕ
  | 0, _ => 0
  | fuel + 1, n => if 2 ≤ n then log2Fuel fuel (n / 2) + 1 else 0

/-- Floor base-2 logarithm of a natural number (`0` for `0` and `1`). -/
def lgFloor (n : ℕ) : ℕ := log2Fuel n n

/-- Round a natural number to 53 significant bits, ties to even (the
significand rounding performed by `Number(bigint)` and by binary64
arithmetic on integral magnitudes). -/
def roundNat53 (n : ℕ) : ℕ :=
  if n < 2 ^ 53 then n
  else
    let s := lgFloor n - 52
    let q := n / 2 ^ s
    let r := n % 2 ^ s
    let half := 2 ^ (s - 1)
    let q' := if half < r ∨ (r = half ∧ q % 2 = 1) then q + 1 else q
    q' * 2 ^ s

/-- `Number(b)` on a host bigint: round to nearest binary64, ties to even,
overflowing to the infinities. -/
def numOfInt (i : ℤ) : Dbl :=
  let m := roundNat53 i.natAbs
  if 2 ^ 1024 ≤ m then (if i < 0 then .ninf else .inf)
  else if i < 0 then .fin (-(m : ℚ)) else .fin (m : ℚ)

/-- Round a rational to an integer, ties to even. -/
def roundHalfEvenQ (x : ℚ) : ℤ :=
  let fl := ⌊x⌋
  let fr := x - (fl : ℚ)
  if fr < 1 / 2 then fl
  else if 1 / 2 < fr then fl + 1
  else if fl % 2 = 0 then fl else fl + 1

/-- `2 ^ e` for an integer exponent, as a rational. -/
def qpow2 (e : ℤ) : ℚ :=
  if 0 ≤ e then ((2 ^ e.toNat : ℕ) : ℚ) else 1 / ((2 ^ (-e).toNat : ℕ) : ℚ)

/-- Floor of the base-2 logarithm of a positive rational. -/
def floorLog2Q (x : ℚ) : ℤ :=
  let approx : ℤ := (lgFloor x.num.natAbs : ℤ) - (lgFloor x.den : ℤ)
  if qpow2 (approx + 1) ≤ x then approx + 1
  else if qpow2 approx ≤ x then approx
  else approx - 1

/-- Round an exact rational to the nearest binary64 (ties to even, subnormal
range clamped at `2 ^ (-1074)`, overflow to the infinities). This is the
rounding the host applies after each double arithmetic operation. -/
def roundRat (x : ℚ) : Dbl :=
  if x = 0 then .fin 0
  else
    let ax := |x|
    let e := floorLog2Q ax
    let p := max (e - 52) (-1074)
    let m := roundHalfEvenQ (ax / qpow2 p)
    let v := (m : ℚ) * qpow2 p
    if ((2 : ℚ) ^ 1024) ≤ v then (if x < 0 then .ninf else .inf)
    else if x < 0 then .fin (-v) else .fin v

/-- IEEE `<` on doubles (any comparison involving NaN is false). -/
def dblLt : Dbl → Dbl → Bool
  | .fin q, .fin r => q < r
  | .fin _, .inf => true
  | .ninf, .fin _ => true
  | .ninf, .inf => true
  | _, _ => false

/-- JS unary minus on a double (exact). -/
def dblNeg : Dbl → Dbl
  | .fin q => .fin (-q)
  | .inf => .ninf
  | .ninf => .inf
  | .nan => .nan

/-- JS `+` on two doubles. -/
def dblAdd : Dbl → Dbl → Dbl
  | .nan, _ => .nan
  | _, .nan => .nan
  | .inf, .ninf => .nan
  | .ninf, .inf => .nan
  | .inf, _ => .inf
  | _, .inf => .inf
  | .ninf, _ => .ninf
  | _, .ninf => .ninf
  | .fin a, .fin b => roundRat (a + b)

/-- JS `-` on two doubles. -/
def dblSub (a b : Dbl) : Dbl := dblAdd a (dblNeg b)

/-- JS `*` on two doubles. -/
def dblMul : Dbl → Dbl → Dbl
  | .nan, _ => .nan
  | _, .nan => .nan
  | .inf, .fin b => if b = 0 then .nan else if b < 0 then .ninf else .inf
  | .ninf, .fin b => if b = 0 then .nan else if b < 0 then .inf else .ninf
  | .fin a, .inf => if a = 0 then .nan else if a < 0 then .ninf else .inf
  | .fin a, .ninf => if a = 0 then .nan else if a < 0 then .inf else .ninf
  | .inf, .inf => .inf
  | .inf, .ninf => .ninf
  | .ninf, .inf => .ninf
  | .ninf, .ninf => .inf
  | .fin a, .fin b => roundRat (a * b)

-- ── JS equality primitives ───────────────────────────────────────────────

def isNull : CelVal → Bool
  | .vnull => true
  | _ => false

/-- JS strict equality `===` on the modelled domain. Primitives (null, bool,
bigint, string, number) compare by value with `NaN !== NaN`; object-shaped
values compare by reference and are modelled as distinct. -/
def jsStrictEq : CelVal → CelVal → Bool
  | .vnull, .vnull => true
  | .vbool a, .vbool b => a == b
  | .vint a, .vint b => a == b
  | .vstr a, .vstr b => a == b
  | .vdouble a, .vdouble b =>
    match a, b with
    | .fin q, .fin r => q == r
    | .inf, .inf => true
    | .ninf, .ninf => true
    | _, _ => false
  | _, _ => false

/-- JS `SameValueZero` (the key equality of `Map`): like `===` but with
`NaN` equal to itself. -/
def jsSameValueZero (a b : CelVal) : Bool :=
  match a, b with
  | .vdouble .nan, .vdouble .nan => true
  | _, _ => jsStrictEq a b

-- ── numericCompare (src/index.ts) ────────────────────────────────────────

/-- Payload of an exact integer operand (int or uint), if any. -/
def exactIntVal : CelVal → Option ℤ
  | .vint i => some i
  | .vuint u => some u
  | _ => none

/-- `toNumber` from src/index.ts: convert a numeric operand to a double.
(Callers guard with `isNumeric`; the catch-all is unreachable.) -/
def toNumber : CelVal → Dbl
  | .vint i => numOfInt i
  | .vuint u => numOfInt u
  | .vdouble d => d
  | _ => .nan

/-- `numericCompare` from src/index.ts. Both operands exact integers (int or
uint): arbitrary-precision bigint comparison. Otherwise both are converted
to doubles; a NaN operand gives `none` (the source's `Number.NaN` result). -/
def numericCompare (a b : CelVal) : Option ℤ :=
  match exactIntVal a, exactIntVal b with
  | some ai, some bi => some (if ai < bi then -1 else if bi < ai then 1 else 0)
  | _, _ =>
    let an := toNumber a
    let bn := toNumber b
    if an = .nan ∨ bn = .nan then none
    else some (if dblLt an bn then -1 else if dblLt bn an then 1 else 0)

-- ── celEq (src/index.ts) ─────────────────────────────────────────────────

mutual

/-- `celEq` from src/index.ts on present values (the sentinel cases are in
`celEq` below). The branch order mirrors the source: null checks, the `===`
fast path, string and bool rejection, cross-numeric comparison, then the
structural branches. Plain records (no `__type` tag) fail every structural
branch and fall through to `false`, as in the source. -/
def celEqV (a b : CelVal) : Option Bool :=
  if isNull a && isNull b then some true
  else if isNull a || isNull b then some false
  else if jsStrictEq a b then some true
  else if isStr a then some false
  else if isStr b then some false
  else if isBool a || isBool b then some false
  else if isNumeric a && isNumeric b then some (numericCompare a b == some 0)
  else
    match a, b with
    | .vbytes x, .vbytes y => some (x == y)
    | .vlist x, .vlist y =>
        if x.length ≠ y.length then some false else celEqListLoop x y
    | .vmap x, .vmap y =>
        if x.length ≠ y.length then some false else celEqMapLoop x y
    | .vtype n, .vtype m => some (n == m)
    | .vts s1 n1, .vts s2 n2 => some (s1 == s2 && n1 == n2)
    | .vdur s1 n1, .vdur s2 n2 => some (s1 == s2 && n1 == n2)
    | _, _ => some false
termination_by sizeOf a + sizeOf b

/-- The element-wise list loop of `celEq` (lengths already checked equal by
the caller; the mismatched-length patterns are unreachable). -/
def celEqListLoop : List CelVal → List CelVal → Option Bool
  | x :: xs, y :: ys =>
    match celEqV x y with
    | some true => celEqListLoop xs ys
    | r => r
  | _, _ => some true
termination_by xs ys => sizeOf xs + sizeOf ys

/-- The entry-wise map loop of `celEq`: for every entry `(k, v)` of the left
map, look up `k` in the right map (`mapGet`: first a `SameValueZero` pass,
then a `celEq` pass) and compare values. The lookup is fused with the value
comparison so the recursion is visibly size-decreasing; a modelled map never
stores the sentinel, so a missed lookup coincides with `!mapHas` and the
source returns `false` there. -/
def celEqMapLoop : List (CelVal × CelVal) → List (CelVal × CelVal) → Option Bool
  | [], _ => some true
  | (k, v) :: rest, bs =>
    match celEqSameHit v bs k with
    | some r => (match r with | some true => celEqMapLoop rest bs | r' => r')
    | none =>
      match celEqScanHit v bs k with
      | some r => (match r with | some true => celEqMapLoop rest bs | r' => r')
      | none => some false
termination_by xs bs => sizeOf xs + sizeOf bs

/-- First `mapGet` phase fused with the value comparison: at the first
`SameValueZero` key hit, compare `v` with the stored value. -/
def celEqSameHit (v : CelVal) : List (CelVal × CelVal) → CelVal → Option (Option Bool)
  | [], _ => none
  | (k', v') :: rest, k =>
    if jsSameValueZero k' k then some (celEqV v v') else celEqSameHit v rest k
termination_by bs k => sizeOf v + sizeOf bs + sizeOf k

/-- Second `mapGet` phase fused with the value comparison: at the first
`celEq`-equal key hit, compare `v` with the stored value. -/
def celEqScanHit (v : CelVal) : List (CelVal × CelVal) → CelVal → Option (Option Bool)
  | [], _ => none
  | (k', v') :: rest, k =>
    if celEqV k' k == some true then some (celEqV v v') else celEqScanHit v rest k
termination_by bs k => sizeOf v + sizeOf bs + sizeOf k

end

/-- `celEq` from src/index.ts: the sentinel propagates, then `celEqV`. -/
def celEq : JsVal → JsVal → Option Bool
  | none, _ => none
  | _, none => none
  | some a, some b => celEqV a b

/-- `celNe` from src/index.ts. -/
def celNe (a b : JsVal) : Option Bool :=
  match celEq a b with
  | none => none
  | some eq => some (!eq)

-- ── Map lookup helpers (src/index.ts) ────────────────────────────────────

/-- The `celEq` scan of `mapGet`/`mapHas`. -/
def celEqScan : List (CelVal × CelVal) → CelVal → Option CelVal
  | [], _ => none
  | (k, v) :: rest, key =>
    if celEqV k key == some true then some v else celEqScan rest key

/-- `mapGet` from src/index.ts: fast `Map.has` path (SameValueZero), then a
linear scan under `celEq`. -/
def mapGet (m : List (CelVal × CelVal)) (key : CelVal) : Option CelVal :=
  match m.find? (fun e => jsSameValueZero e.1 key) with
  | some e => some e.2
  | none => celEqScan m key

/-- `mapHas` from src/index.ts. -/
def mapHas (m : List (CelVal × CelVal)) (key : CelVal) : Bool :=
  (m.find? (fun e => jsSameValueZero e.1 key)).isSome || (celEqScan m key).isSome

-- ── Relational operators (src/index.ts) ──────────────────────────────────

/-- `bytesCompare` from src/index.ts: first differing octet decides,
otherwise the length difference. -/
def bytesCompare : List ℕ → List ℕ → ℤ
  | a :: as, b :: bs => if a ≠ b then (if a < b then -1 else 1) else bytesCompare as bs
  | as, bs => (as.length : ℤ) - (bs.length : ℤ)

/-- `timestampCompare` from src/index.ts. -/
def timestampCompare (s1 n1 s2 n2 : ℤ) : ℤ :=
  if s1 ≠ s2 then (if s1 < s2 then -1 else 1)
  else if n1 ≠ n2 then (if n1 < n2 then -1 else 1)
  else 0

/-- `durationCompare` from src/index.ts. -/
def durationCompare (s1 n1 s2 n2 : ℤ) : ℤ :=
  if s1 ≠ s2 then (if s1 < s2 then -1 else 1)
  else if n1 ≠ n2 then (if n1 < n2 then -1 else 1)
  else 0

/-- `celLt` from src/index.ts. The string order uses Lean's code-point
lexicographic order; the host's UTF-16 code-unit order differs from it only
across the surrogate boundary. -/
def celLt : JsVal → JsVal → Option Bool
  | some (.vint x), some (.vint y) => some (x < y)
  | some av, some bv =>
    if isNumeric av && isNumeric bv then
      match numericCompare av bv with
      | none => some false
      | some c => some (c < 0)
    else
      match av, bv with
      | .vstr s, .vstr t => some (s < t)
      | .vbool x, .vbool y => some (!x && y)
      | .vbytes x, .vbytes y => some (bytesCompare x y < 0)
      | .vts s1 n1, .vts s2 n2 => some (timestampCompare s1 n1 s2 n2 < 0)
      | .vdur s1 n1, .vdur s2 n2 => some (durationCompare s1 n1 s2 n2 < 0)
      | _, _ => none
  | _, _ => none

/-- `celLe` from src/index.ts. -/
def celLe : JsVal → JsVal → Option Bool
  | some (.vint x), some (.vint y) => some (x ≤ y)
  | some av, some bv =>
    if isNumeric av && isNumeric bv then
      match numericCompare av bv with
      | none => some false
      | some c => some (c ≤ 0)
    else
      match av, bv with
      | .vstr s, .vstr t => some (s ≤ t)
      | .vbool x, .vbool y => some (!x || y)
      | .vbytes x, .vbytes y => some (bytesCompare x y ≤ 0)
      | .vts s1 n1, .vts s2 n2 => some (timestampCompare s1 n1 s2 n2 ≤ 0)
      | .vdur s1 n1, .vdur s2 n2 => some (durationCompare s1 n1 s2 n2 ≤ 0)
      | _, _ => none
  | _, _ => none

/-- `celGt` from src/index.ts. -/
def celGt : JsVal → JsVal → Option Bool
  | some (.vint x), some (.vint y) => some (y < x)
  | some av, some bv =>
    if isNumeric av && isNumeric bv then
      match numericCompare av bv with
      | none => some false
      | some c => some (0 < c)
    else
      match av, bv with
      | .vstr s, .vstr t => some (t < s)
      | .vbool x, .vbool y => some (x && !y)
      | .vbytes x, .vbytes y => some (0 < bytesCompare x y)
      | .vts s1 n1, .vts s2 n2 => some (0 < timestampCompare s1 n1 s2 n2)
      | .vdur s1 n1, .vdur s2 n2 => some (0 < durationCompare s1 n1 s2 n2)
      | _, _ => none
  | _, _ => none

/-- `celGe` from src/index.ts. -/
def celGe : JsVal → JsVal → Option Bool
  | some (.vint x), some (.vint y) => some (y ≤ x)
  | some av, some bv =>
    if isNumeric av && isNumeric bv then
      match numericCompare av bv with
      | none => some false
      | some c => some (0 ≤ c)
    else
      match av, bv with
      | .vstr s, .vstr t => some (t ≤ s)
      | .vbool x, .vbool y => some (x || !y)
      | .vbytes x, .vbytes y => some (0 ≤ bytesCompare x y)
      | .vts s1 n1, .vts s2 n2 => some (0 ≤ timestampCompare s1 n1 s2 n2)
      | .vdur s1 n1, .vdur s2 n2 => some (0 ≤ durationCompare s1 n1 s2 n2)
      | _, _ => none
  | _, _ => none

-- ── Timestamp and duration helpers (src/index.ts) ────────────────────────

def TIMESTAMP_MIN_SEC : ℤ := -62135596800
def TIMESTAMP_MAX_SEC : ℤ := 253402300799

/-- `durationToNanos` from src/index.ts. -/
def durationToNanos (secs nanos : ℤ) : ℤ := secs * 1000000000 + nanos

/-- `nanosToValidDuration` from src/index.ts: range-check against int64
nanoseconds, then normalize the nanos sign to match the seconds. -/
def nanosToValidDuration (totalNanos : ℤ) : JsVal :=
  if totalNanos > INT64_MAX ∨ totalNanos < INT64_MIN then none
  else
    let secs := Int.tdiv totalNanos 1000000000
    let nanos := Int.tmod totalNanos 1000000000
    if nanos < 0 ∧ secs > 0 then some (.vdur (secs - 1) (nanos + 1000000000))
    else if nanos > 0 ∧ secs < 0 then some (.vdur (secs + 1) (nanos - 1000000000))
    else some (.vdur secs nanos)

/-- `addDurationToTimestamp` from src/index.ts. -/
def addDurationToTimestamp (tsSec tsNanos durSec durNanos : ℤ) : JsVal :=
  let resultSec := tsSec + durSec
  let resultNanos := tsNanos + durNanos
  let (resultSec, resultNanos) :=
    if resultNanos ≥ 1000000000 then (resultSec + 1, resultNanos - 1000000000)
    else if resultNanos < 0 then (resultSec - 1, resultNanos + 1000000000)
    else (resultSec, resultNanos)
  if resultSec < TIMESTAMP_MIN_SEC ∨ resultSec > TIMESTAMP_MAX_SEC then none
  else if resultSec = TIMESTAMP_MAX_SEC ∧ resultNanos > 999999999 then none
  else some (.vts resultSec resultNanos)

/-- `subtractTimestamps` from src/index.ts. -/
def subtractTimestamps (aSec aNanos bSec bNanos : ℤ) : JsVal :=
  nanosToValidDuration ((aSec - bSec) * 1000000000 + aNanos - bNanos)

-- ── Arithmetic (src/index.ts) ────────────────────────────────────────────

/-- `celAdd` from src/index.ts: same-type int/uint addition with range
checks, double addition, string/list/bytes concatenation, and the
timestamp/duration forms; every other combination is the sentinel. -/
def celAdd : JsVal → JsVal → JsVal
  | some (.vint x), some (.vint y) =>
    if inInt64Range (x + y) then some (.vint (x + y)) else none
  | some (.vuint x), some (.vuint y) =>
    if inUint64Range (x + y) then some (.vuint (x + y)) else none
  | some (.vdouble x), some (.vdouble y) => some (.vdouble (dblAdd x y))
  | some (.vstr x), some (.vstr y) => some (.vstr (x ++ y))
  | some (.vlist x), some (.vlist y) => some (.vlist (x ++ y))
  | some (.vbytes x), some (.vbytes y) => some (.vbytes (x ++ y))
  | some (.vts s n), some (.vdur ds dn) => addDurationToTimestamp s n ds dn
  | some (.vdur ds dn), some (.vts s n) => addDurationToTimestamp s n ds dn
  | some (.vdur s1 n1), some (.vdur s2 n2) =>
    nanosToValidDuration (durationToNanos s1 n1 + durationToNanos s2 n2)
  | _, _ => none

/-- `celSub` from src/index.ts. -/
def celSub : JsVal → JsVal → JsVal
  | some (.vint x), some (.vint y) =>
    if inInt64Range (x - y) then some (.vint (x - y)) else none
  | some (.vuint x), some (.vuint y) =>
    if inUint64Range (x - y) then some (.vuint (x - y)) else none
  | some (.vdouble x), some (.vdouble y) => some (.vdouble (dblSub x y))
  | some (.vts s n), some (.vdur ds dn) =>
    match nanosToValidDuration (-(durationToNanos ds dn)) with
    | some (.vdur ns nn) => addDurationToTimestamp s n ns nn
    | _ => none
  | some (.vts s1 n1), some (.vts s2 n2) => subtractTimestamps s1 n1 s2 n2
  | some (.vdur s1 n1), some (.vdur s2 n2) =>
    nanosToValidDuration (durationToNanos s1 n1 - durationToNanos s2 n2)
  | _, _ => none

/-- `celMul` from src/index.ts. -/
def celMul : JsVal → JsVal → JsVal
  | some (.vint x), some (.vint y) =>
    if inInt64Range (x * y) then some (.vint (x * y)) else none
  | some (.vuint x), some (.vuint y) =>
    if inUint64Range (x * y) then some (.vuint (x * y)) else none
  | some (.vdouble x), some (.vdouble y) => some (.vdouble (dblMul x y))
  | _, _ => none

/-- `celNeg` from src/index.ts: int negation is range-checked, double
negation is exact, uint negation is the sentinel. -/
def celNeg : JsVal → JsVal
  | some (.vint x) => if inInt64Range (-x) then some (.vint (-x)) else none
  | some (.vdouble d) => some (.vdouble (dblNeg d))
  | _ => none

/-- `celDyn` from src/index.ts: the identity. -/
def celDyn (v : JsVal) : JsVal := v

-- ── BigInt(string) and celToInt (src/index.ts) ───────────────────────────

/-- The whitespace class trimmed by the host's `BigInt(string)`. -/
def isJsWhitespace (c : Char) : Bool :=
  c = ' ' || c = '\t' || c = '\n' || c = '\r' ||
  c.val = 11 || c.val = 12 || c.val = 0xA0 || c.val = 0x2028 ||
  c.val = 0x2029 || c.val = 0xFEFF

/-- The value of one digit in the given base, if valid. -/
def digitVal (base : ℕ) (c : Char) : Option ℕ :=
  let v : ℕ :=
    if '0' ≤ c ∧ c ≤ '9' then c.toNat - '0'.toNat
    else if 'a' ≤ c ∧ c ≤ 'f' then c.toNat - 'a'.toNat + 10
    else if 'A' ≤ c ∧ c ≤ 'F' then c.toNat - 'A'.toNat + 10
    else 99
  if v < base then some v else none

/-- Value of a non-empty digit string in the given base. -/
def digitsVal (base : ℕ) : List Char → Option ℕ
  | [] => none
  | cs => go cs 0
where
  go : List Char → ℕ → Option ℕ
    | [], acc => some acc
    | c :: rest, acc =>
      match digitVal base c with
      | some d => go rest (acc * base + d)
      | none => none

/-- The host's `BigInt(string)` (ECMA `StringToBigInt`): trim whitespace,
empty means 0, `0x`/`0o`/`0b` radix forms (no sign), otherwise an optionally
signed decimal digit string; anything else (fractions, exponents, stray
characters) throws, modelled as `none`. -/
def jsStringToBigInt (s : String) : Option ℤ :=
  let cs := ((s.toList.dropWhile isJsWhitespace).reverse.dropWhile isJsWhitespace).reverse
  match cs with
  | [] => some 0
  | '0' :: x :: rest =>
    if x = 'x' ∨ x = 'X' then (digitsVal 16 rest).map Int.ofNat
    else if x = 'o' ∨ x = 'O' then (digitsVal 8 rest).map Int.ofNat
    else if x = 'b' ∨ x = 'B' then (digitsVal 2 rest).map Int.ofNat
    else (digitsVal 10 cs).map Int.ofNat
  | '+' :: rest => (digitsVal 10 rest).map Int.ofNat
  | '-' :: rest => (digitsVal 10 rest).map (fun n => -(n : ℤ))
  | _ => (digitsVal 10 cs).map Int.ofNat

/-- JS `Math.trunc` on a finite double: round toward zero. -/
def truncQ (q : ℚ) : ℤ := if 0 ≤ q then ⌊q⌋ else -⌊-q⌋

/-- `celToInt` from src/index.ts (`int(x)` conversion). Strings go through
the host's `BigInt(string)` with a try/catch, then an int64 range check. -/
def celToInt : JsVal → JsVal
  | some (.vint i) => some (.vint i)
  | some (.vuint u) => if inInt64Range u then some (.vint u) else none
  | some (.vdouble d) =>
    match d with
    | .fin q =>
      if q ≥ (2 : ℚ) ^ 63 ∨ q ≤ -((2 : ℚ) ^ 63) then none
      else some (.vint (truncQ q))
    | _ => none
  | some (.vbool b) => some (.vint (if b then 1 else 0))
  | some (.vstr s) =>
    match jsStringToBigInt s with
    | some r => if inInt64Range r then some (.vint r) else none
    | none => none
  | some (.vts secs _) => some (.vint secs)
  | _ => none

-- ── Field selection (src/index.ts) ───────────────────────────────────────

/-- JS property read `record[field]` on a plain record. -/
def lookupField : List (String × CelVal) → String → JsVal
  | [], _ => none
  | (f, v) :: rest, field => if f = field then some v else lookupField rest field

/-- `celSelect` from src/index.ts on the modelled domain: `undefined`/null
give the sentinel; plain records read the property; maps use `mapGet` with
the field name as key; every other modelled shape (lists, bytes, uint/type
wrappers, timestamps, durations, primitives) is the sentinel. -/
def celSelect (obj : JsVal) (field : String) : JsVal :=
  match obj with
  | some (.vobj fs) => lookupField fs field
  | some (.vmap m) => mapGet m (.vstr field)
  | _ => none

-- ── Map construction (src/index.ts) ──────────────────────────────────────

/-- JS `Map.set`: on a `SameValueZero` key hit replace the value keeping the
original key and position, otherwise append the new entry. -/
def jsMapSet (m : List (CelVal × CelVal)) (k v : CelVal) : List (CelVal × CelVal) :=
  if m.any (fun e => jsSameValueZero e.1 k) then
    m.map (fun e => if jsSameValueZero e.1 k then (e.1, v) else e)
  else m ++ [(k, v)]

/-- The entry loop of `celMakeMap`: reject double/null keys, reject keys
`celEq`-equal to an already-inserted key, otherwise `Map.set`. -/
def celMakeMapGo : List (CelVal × CelVal) → List (CelVal × CelVal) → JsVal
  | [], m => some (.vmap m)
  | (k, v) :: rest, m =>
    if isDouble k || isNull k then none
    else if m.any (fun e => celEqV e.1 k == some true) then none
    else celMakeMapGo rest (jsMapSet m k v)

/-- `celMakeMap` from src/index.ts: build a map from key/value pairs,
failing on float/null keys and on duplicate keys under `celEq`. (Entries are
taken from the value domain: the host corner case of a sentinel operand
slipping into an entry is outside the modelled domain.) -/
def celMakeMap (entries : List (CelVal × CelVal)) : JsVal :=
  celMakeMapGo entries []

/-- `celMapInsert` from src/index.ts: propagate a sentinel value, reject a
non-map, then copy and `Map.set` — with no `celEq` duplicate-key check.
(A sentinel key, which the host would store verbatim, is outside the
modelled map domain.) -/
def celMapInsert (map key value : JsVal) : JsVal :=
  match value with
  | none => none
  | some v =>
    match map, key with
    | some (.vmap m), some k => some (.vmap (jsMapSet m k v))
    | _, _ => none

-- ── Emitted logical operators (src/codegen/transformer.ts) ───────────────

/-- The emitted test `x === true`. -/
def isLitTrue : JsVal → Bool
  | some v => jsStrictEq v (.vbool true)
  | none => false

/-- The emitted test `x === false`. -/
def isLitFalse : JsVal → Bool
  | some v => jsStrictEq v (.vbool false)
  | none => false

/-- The conditional cascade emitted by `transformLogicalAnd`
(src/codegen/transformer.ts), applied to the two temporaries after both
operands have been evaluated:
`_a === false ? false : _b === false ? false :
 (_a === true && _b === true) ? true : undefined`. -/
def logicalAndCascade (a b : JsVal) : JsVal :=
  if isLitFalse a then some (.vbool false)
  else if isLitFalse b then some (.vbool false)
  else if isLitTrue a && isLitTrue b then some (.vbool true)
  else none

/-- The conditional cascade emitted by `transformLogicalOr`
(src/codegen/transformer.ts):
`_a === true ? true : _b === true ? true :
 (_a === false && _b === false) ? false : undefined`. -/
def logicalOrCascade (a b : JsVal) : JsVal :=
  if isLitTrue a then some (.vbool true)
  else if isLitTrue b then some (.vbool true)
  else if isLitFalse a && isLitFalse b then some (.vbool false)
  else none

/-- A fragment of emitted code, for reasoning about evaluation order: `lit`
is a constant, `probe` is an arbitrary labelled operand expression, and the
three compound forms are the exact shapes emitted by `transformLogicalAnd`,
`transformLogicalOr` and the ternary case of `transformCall`. -/
inductive GenExpr where
  | lit (v : JsVal)
  | probe (id : ℕ) (v : JsVal)
  | andE (a b : GenExpr)
  | orE (a b : GenExpr)
  | ternE (c t f : GenExpr)

/-- Instrumented evaluation of emitted code: the result value together with
the labels of the probes evaluated, in order. `andE`/`orE` mirror the
emitted sequence expression `(_a = left, _b = right, cascade)`: both
operands are evaluated unconditionally, then the pure cascade is applied.
`ternE` mirrors the emitted conditional chain
`c === true ? t : c === false ? f : undefined`: exactly one branch is
evaluated when the condition is a strict boolean, none otherwise. -/
def evalGen : GenExpr → JsVal × List ℕ
  | .lit v => (v, [])
  | .probe id v => (v, [id])
  | .andE a b =>
    let ra := evalGen a
    let rb := evalGen b
    (logicalAndCascade ra.1 rb.1, ra.2 ++ rb.2)
  | .orE a b =>
    let ra := evalGen a
    let rb := evalGen b
    (logicalOrCascade ra.1 rb.1, ra.2 ++ rb.2)
  | .ternE c t f =>
    let rc := evalGen c
    if isLitTrue rc.1 then
      let rt := evalGen t
      (rt.1, rc.2 ++ rt.2)
    else if isLitFalse rc.1 then
      let rf := evalGen f
      (rf.1, rc.2 ++ rf.2)
    else (none, rc.2)

/-- The specification's truth table for `&&` (§4.6 of the spec): false if
either operand is false, true if both are true, the error sentinel
otherwise. Stated from the spec's words, to be compared with the emitted
cascade. -/
def specAnd (a b : JsVal) : JsVal :=
  if isLitFalse a || isLitFalse b then some (.vbool false)
  else if isLitTrue a && isLitTrue b then some (.vbool true)
  else none

/-- The specification's truth table for `||` (§4.6 of the spec). -/
def specOr (a b : JsVal) : JsVal :=
  if isLitTrue a || isLitTrue b then some (.vbool true)
  else if isLitFalse a && isLitFalse b then some (.vbool false)
  else none

-- ── Qualified identifier resolution (src/codegen/transformer.ts) ─────────

/-- `Array.join(".")` on path segments. -/
def joinSegs : List String → String
  | [] => ""
  | [s] => s
  | s :: rest => s ++ "." ++ joinSegs rest

/-- A chain of emitted `_rt.select` calls. -/
def applySelects : JsVal → List String → JsVal
  | v, [] => v
  | v, f :: rest => applySelects (celSelect v f) rest

/-- The conditional chain emitted by `buildQualifiedResolution`
(src/codegen/transformer.ts), tested from the `i`-segment prefix down:
`"p" in _qb ? _qb["p"] (+ selects) : <next shorter>`, with the one-segment
level the fallback through the root binding parameter. -/
def qualifiedCascade (segments : List String) (qb : String → Option CelVal)
    (rootVal : JsVal) : ℕ → JsVal
  | 0 => applySelects rootVal (segments.drop 1)
  | 1 => applySelects rootVal (segments.drop 1)
  | (i + 2) =>
    match qb (joinSegs (segments.take (i + 2))) with
    | some v => applySelects (some v) (segments.drop (i + 2))
    | none => qualifiedCascade segments qb rootVal (i + 1)

/-- The full emitted resolution for a qualified identifier chain: longest
prefix first, fallback via the root binding parameter. -/
def buildQualifiedResolutionSem (segments : List String)
    (qb : String → Option CelVal) (rootVal : JsVal) : JsVal :=
  qualifiedCascade segments qb rootVal segments.length

-- ── The evaluate boundary (src/transpiler.ts) ────────────────────────────

/-- `CelError`'s message for an evaluation failure (src/transpiler.ts). -/
def celErrorMessage : String := "CEL evaluation error for expression"

def nestedEnumVal : CelVal :=
  .vobj [("FOO", .vint 0), ("BAR", .vint 1), ("BAZ", .vint 2)]

def globalEnumVal : CelVal :=
  .vobj [("GOO", .vint 0), ("GAR", .vint 1), ("GAZ", .vint 2)]

def nullValueEnumVal : CelVal := .vobj [("NULL_VALUE", .vint 0)]

def testAllTypesVal : CelVal :=
  .vobj [("NestedEnum", nestedEnumVal), ("NestedMessage", .vtype "NestedMessage")]

def testRequiredVal : CelVal := .vobj []

/-- `defaultQualifiedBindings` from src/transpiler.ts: the well-known
protobuf type names and conformance enum/type constants. -/
def defaultQualifiedBindings : List (String × CelVal) := [
  ("google.protobuf.Timestamp", .vtype "google.protobuf.Timestamp"),
  ("google.protobuf.Duration", .vtype "google.protobuf.Duration"),
  ("google.protobuf.BoolValue", .vtype "google.protobuf.BoolValue"),
  ("google.protobuf.BytesValue", .vtype "google.protobuf.BytesValue"),
  ("google.protobuf.DoubleValue", .vtype "google.protobuf.DoubleValue"),
  ("google.protobuf.FloatValue", .vtype "google.protobuf.FloatValue"),
  ("google.protobuf.Int32Value", .vtype "google.protobuf.Int32Value"),
  ("google.protobuf.Int64Value", .vtype "google.protobuf.Int64Value"),
  ("google.protobuf.StringValue", .vtype "google.protobuf.StringValue"),
  ("google.protobuf.UInt32Value", .vtype "google.protobuf.UInt32Value"),
  ("google.protobuf.UInt64Value", .vtype "google.protobuf.UInt64Value"),
  ("google.protobuf.Value", .vtype "google.protobuf.Value"),
  ("google.protobuf.Any", .vtype "google.protobuf.Any"),
  ("google.protobuf.ListValue", .vtype "google.protobuf.ListValue"),
  ("google.protobuf.Struct", .vtype "google.protobuf.Struct"),
  ("cel.expr.conformance.proto2.TestAllTypes", testAllTypesVal),
  ("cel.expr.conformance.proto3.TestAllTypes", testAllTypesVal),
  ("cel.expr.conformance.proto2.TestRequired", testRequiredVal),
  ("cel.expr.conformance.proto2.GlobalEnum", globalEnumVal),
  ("cel.expr.conformance.proto3.GlobalEnum", globalEnumVal),
  ("google.protobuf.NullValue", nullValueEnumVal),
  ("NullValue", nullValueEnumVal),
  ("TestAllTypes", testAllTypesVal),
  ("TestRequired", testRequiredVal),
  ("GlobalEnum", globalEnumVal),
  ("net.IP", .vtype "net.IP"),
  ("net.CIDR", .vtype "net.CIDR")]

/-- Property read on a binding record. -/
def lookupBinding (bs : List (String × CelVal)) (k : String) : Option CelVal :=
  (bs.find? (fun e => e.1 = k)).map (fun e => e.2)

/-- Property read on `{...defaultQualifiedBindings, ...bindings}` (the
`qualifiedBindings` record of `evaluate`, src/transpiler.ts): user bindings
shadow the defaults. -/
def qbLookup (bindings : List (String × CelVal)) (k : String) : Option CelVal :=
  match lookupBinding bindings k with
  | some v => some v
  | none => lookupBinding defaultQualifiedBindings k

/-- The per-name binding resolution of `evaluate` (src/transpiler.ts): with
a container, `container.name` in the user bindings wins; then the user
binding; then the merged qualified-bindings record. -/
def resolveBinding (container : Option String)
    (bindings : List (String × CelVal)) (name : String) : JsVal :=
  match container with
  | some c =>
    match lookupBinding bindings (c ++ "." ++ name) with
    | some v => some v
    | none =>
      match lookupBinding bindings name with
      | some v => some v
      | none => qbLookup bindings name
  | none =>
    match lookupBinding bindings name with
    | some v => some v
    | none => qbLookup bindings name

/-- `evaluate` from src/transpiler.ts: build the qualified-bindings record,
resolve each manifest name into an argument, call the compiled function, and
convert the sentinel into a thrown `CelError` — every other result is
returned as-is. -/
def evaluate (compiledFn : (String → Option CelVal) → List JsVal → JsVal)
    (bindingNames : List String) (container : Option String)
    (bindings : List (String × CelVal)) : Except String CelVal :=
  let qb := qbLookup bindings
  let args := bindingNames.map (resolveBinding container bindings)
  match compiledFn qb args with
  | none => .error celErrorMessage
  | some v => .ok v

/-- End-to-end resolution of a qualified identifier `s1.s2...sn` as compiled
by the transformer and invoked by `evaluate`: the emitted cascade over the
merged qualified-bindings record, with the root segment resolved as a
binding parameter. -/
def evalQualifiedIdent (segments : List String) (container : Option String)
    (bindings : List (String × CelVal)) : JsVal :=
  buildQualifiedResolutionSem segments (qbLookup bindings)
    (resolveBinding container bindings (segments.headD ""))

-- ── Binding discovery (src/codegen/transformer.ts) ───────────────────────

/-- The CEL AST (src/parser/ast.ts), as consumed by the transformer. -/
inductive CExpr where
  | intLit (i : ℤ)
  | uintLit (u : ℤ)
  | doubleLit (d : Dbl)
  | strLit (s : String)
  | boolLit (b : Bool)
  | nullLit
  | bytesLit (bs : List ℕ)
  | ident (name : String)
  | selectE (operand : CExpr) (field : String) (testOnly : Bool)
  | call (fn : String) (target : Option CExpr) (args : List CExpr)
  | createList (elems : List CExpr)
  | createMap (entries : List (CExpr × CExpr))
  | createStruct (messageName : String) (entries : List (String × CExpr))
  | comprehension (iterVar : String) (iterVar2 : Option String)
      (iterRange : CExpr) (accuVar : String) (accuInit : CExpr)
      (loopCondition : CExpr) (loopStep : CExpr) (result : CExpr)

/-- `CEL_TYPE_CONSTANTS` from src/codegen/transformer.ts: identifiers that
resolve to `CelType` values instead of bindings. -/
def celTypeConstants : List String :=
  ["bool", "int", "uint", "double", "string", "bytes", "list", "map",
   "type", "null_type"]

/-- `collectSelectChain` from src/codegen/transformer.ts: segments of a
non-test select chain bottoming out at an identifier. -/
def collectSelectChain : CExpr → Option (List String)
  | .ident n => some [n]
  | .selectE op f false => (collectSelectChain op).map (fun p => p ++ [f])
  | _ => none

/-- Insertion into the transformer's `Set` of discovered binding names
(insertion-ordered, duplicates ignored). -/
def addBinding (n : String) (s : List String) : List String :=
  if n ∈ s then s else s ++ [n]

mutual

/-- The binding-name discovery performed by `transformExpr`
(src/codegen/transformer.ts), threading the mutable `Set` as a list.
Identifiers add their name unless they are CEL type constants; qualified
select chains add only the root segment; a comprehension transforms its
range and accumulator-init against the outer set, then transforms the loop
condition, step and result against a *copy* of the set (extended with the
iteration and accumulator variables) that is discarded afterwards, so the
outer set receives nothing discovered inside the body. -/
def discoverBindings : CExpr → List String → List String
  | .intLit _, s => s
  | .uintLit _, s => s
  | .doubleLit _, s => s
  | .strLit _, s => s
  | .boolLit _, s => s
  | .nullLit, s => s
  | .bytesLit _, s => s
  | .ident n, s => if n ∈ celTypeConstants then s else addBinding n s
  | .selectE op f testOnly, s =>
    match collectSelectChain (.selectE op f testOnly) with
    | some chain =>
      if chain.length > 1 then addBinding (chain.headD "") s
      else discoverBindings op s
    | none => discoverBindings op s
  | .call _ target args, s =>
    match target with
    | some t => discoverBindingsList args (discoverBindings t s)
    | none => discoverBindingsList args s
  | .createList elems, s => discoverBindingsList elems s
  | .createMap entries, s => discoverBindingsPairs entries s
  | .createStruct _ entries, s => discoverBindingsFields entries s
  | .comprehension iterVar iterVar2 iterRange accuVar accuInit
      loopCondition loopStep result, s =>
    let s1 := discoverBindings iterRange s
    let s2 := discoverBindings accuInit s1
    let inner :=
      match iterVar2 with
      | some n2 => addBinding n2 (addBinding accuVar (addBinding iterVar s2))
      | none => addBinding accuVar (addBinding iterVar s2)
    let _discarded :=
      discoverBindings result
        (discoverBindings loopStep (discoverBindings loopCondition inner))
    s2

def discoverBindingsList : List CExpr → List String → List String
  | [], s => s
  | e :: rest, s => discoverBindingsList rest (discoverBindings e s)

def discoverBindingsPairs : List (CExpr × CExpr) → List String → List String
  | [], s => s
  | (k, v) :: rest, s =>
    discoverBindingsPairs rest (discoverBindings v (discoverBindings k s))

def discoverBindingsFields : List (String × CExpr) → List String → List String
  | [], s => s
  | (_, v) :: rest, s => discoverBindingsFields rest (discoverBindings v s)

end

/-- `transform` (src/codegen/transformer.ts): the binding manifest of a
compiled expression is the set discovered from an empty starting set. -/
def bindingManifest (e : CExpr) : List String := discoverBindings e []

-- ═════════════════════════════════════════════════════════════════════════
-- Theorems
-- ═════════════════════════════════════════════════════════════════════════

-- ── Helper lemmas ────────────────────────────────────────────────────────

lemma isLitFalse_isLitTrue {v : JsVal} (h : isLitFalse v = true) :
    isLitTrue v = false := by
  cases v with
  | none => simp [isLitFalse] at h
  | some w => cases w <;> simp_all [isLitFalse, isLitTrue, jsStrictEq]

lemma andCascade_eq_specAnd (x y : JsVal) :
    logicalAndCascade x y = specAnd x y := by
  cases hfx : isLitFalse x <;> cases hfy : isLitFalse y <;>
    simp [logicalAndCascade, specAnd, hfx, hfy]

lemma orCascade_eq_specOr (x y : JsVal) :
    logicalOrCascade x y = specOr x y := by
  cases htx : isLitTrue x <;> cases hty : isLitTrue y <;>
    simp [logicalOrCascade, specOr, htx, hty]

lemma andCascade_comm (x y : JsVal) :
    logicalAndCascade x y = logicalAndCascade y x := by
  cases hfx : isLitFalse x <;> cases hfy : isLitFalse y <;>
    cases htx : isLitTrue x <;> cases hty : isLitTrue y <;>
      simp [logicalAndCascade, hfx, hfy, htx, hty]

lemma orCascade_comm (x y : JsVal) :
    logicalOrCascade x y = logicalOrCascade y x := by
  cases hfx : isLitFalse x <;> cases hfy : isLitFalse y <;>
    cases htx : isLitTrue x <;> cases hty : isLitTrue y <;>
      simp [logicalOrCascade, hfx, hfy, htx, hty]

-- ── C1: strict logical operators with commutative error absorption ───────

/-- C1: the emitted `&&`/`||` are strict: both operands are always evaluated
(the probe trace of the compound is the concatenation of the operand
traces), and the resulting value follows the spec's commutative
error-absorption table — `a && b` is false if either operand is false, true
if both are true, and the error sentinel otherwise; dually for `||`. In
particular a decisive operand wins on either side, even against an erroring
operand. -/
theorem logicalOps_strict_commutative_absorption (a b : GenExpr) (x : JsVal) :
    (evalGen (.andE a b)).2 = (evalGen a).2 ++ (evalGen b).2 ∧
    (evalGen (.orE a b)).2 = (evalGen a).2 ++ (evalGen b).2 ∧
    (evalGen (.andE a b)).1 = specAnd (evalGen a).1 (evalGen b).1 ∧
    (evalGen (.orE a b)).1 = specOr (evalGen a).1 (evalGen b).1 ∧
    logicalAndCascade x none = logicalAndCascade none x ∧
    logicalOrCascade x none = logicalOrCascade none x ∧
    logicalAndCascade (some (.vbool false)) x = some (.vbool false) ∧
    logicalAndCascade x (some (.vbool false)) = some (.vbool false) ∧
    logicalOrCascade (some (.vbool true)) x = some (.vbool true) ∧
    logicalOrCascade x (some (.vbool true)) = some (.vbool true) := by
  refine ⟨by simp [evalGen], by simp [evalGen],
    by simp [evalGen, andCascade_eq_specAnd],
    by simp [evalGen, orCascade_eq_specOr],
    andCascade_comm x none, orCascade_comm x none, ?_, ?_, ?_, ?_⟩
  · simp [logicalAndCascade, isLitFalse, jsStrictEq]
  · cases hfx : isLitFalse x <;>
      simp [logicalAndCascade, hfx, isLitFalse, jsStrictEq]
  · simp [logicalOrCascade, isLitTrue, jsStrictEq]
  · cases htx : isLitTrue x <;>
      simp [logicalOrCascade, htx, isLitTrue, jsStrictEq]

-- ── C4: ternary — strict-bool condition, lazy branches ───────────────────

/-- C4: the emitted ternary evaluates its condition; when the condition is
strictly `true` only the consequent is evaluated and its value is the
result; when strictly `false` only the alternate; for any other condition
value (including the sentinel) the result is the sentinel and neither
branch is evaluated. -/
theorem ternary_strict_condition_lazy_branches (c t f : GenExpr) :
    (isLitTrue (evalGen c).1 = true →
      evalGen (.ternE c t f) = ((evalGen t).1, (evalGen c).2 ++ (evalGen t).2)) ∧
    (isLitFalse (evalGen c).1 = true →
      evalGen (.ternE c t f) = ((evalGen f).1, (evalGen c).2 ++ (evalGen f).2)) ∧
    (isLitTrue (evalGen c).1 = false → isLitFalse (evalGen c).1 = false →
      evalGen (.ternE c t f) = (none, (evalGen c).2)) := by
  refine ⟨fun h => ?_, fun h => ?_, fun h1 h2 => ?_⟩
  · simp [evalGen, h]
  · simp [evalGen, h, isLitFalse_isLitTrue h]
  · simp [evalGen, h1, h2]

/-- Witness for C4 at a concrete instance: a true condition evaluates only
the consequent probe. -/
theorem ternary_strict_condition_lazy_branches_witness :
    evalGen (.ternE (.probe 0 (some (.vbool true)))
        (.probe 1 (some (.vint 1))) (.probe 2 (some (.vint 2))))
      = ((evalGen (.probe 1 (some (.vint 1)))).1,
         (evalGen (.probe 0 (some (.vbool true)))).2 ++
         (evalGen (.probe 1 (some (.vint 1)))).2) :=
  (ternary_strict_condition_lazy_branches (.probe 0 (some (.vbool true)))
    (.probe 1 (some (.vint 1))) (.probe 2 (some (.vint 2)))).1 rfl

-- ── C2: the evaluate boundary throws exactly on the sentinel ─────────────

/-- C2: `evaluate` throws `CelError` if and only if the compiled function's
result is the internal sentinel; every non-sentinel result is returned
unchanged, and an `ok` outcome always carries a real (non-sentinel) value. -/
theorem evaluate_celError_iff_sentinel
    (f : (String → Option CelVal) → List JsVal → JsVal)
    (names : List String) (container : Option String)
    (bs : List (String × CelVal)) :
    (evaluate f names container bs = .error celErrorMessage ↔
      f (qbLookup bs) (names.map (resolveBinding container bs)) = none) ∧
    (∀ v, f (qbLookup bs) (names.map (resolveBinding container bs)) = some v →
      evaluate f names container bs = .ok v) ∧
    (∀ v, evaluate f names container bs = .ok v →
      f (qbLookup bs) (names.map (resolveBinding container bs)) = some v) := by
  cases h : f (qbLookup bs) (names.map (resolveBinding container bs)) <;>
    simp [evaluate, h]

/-- Witness for C2: a compiled function returning int 7 makes `evaluate`
return 7 rather than throw. -/
theorem evaluate_celError_iff_sentinel_witness :
    evaluate (fun _ _ => some (.vint 7)) [] none [] = .ok (.vint 7) :=
  (evaluate_celError_iff_sentinel (fun _ _ => some (.vint 7)) [] none []).2.1
    (.vint 7) rfl

-- ── C3: longest-prefix-wins qualified identifier resolution ──────────────

lemma resolveBinding_no_container (bs : List (String × CelVal)) (n : String) :
    resolveBinding none bs n = qbLookup bs n := by
  unfold resolveBinding qbLookup
  cases lookupBinding bs n <;> simp [qbLookup]

/-- C3: resolution of `s1.s2.s3` is longest-prefix-wins over the merged
qualified-bindings record: the full dotted key wins; else the two-segment
key with one field select; else the root binding with two field selects;
else the error sentinel. -/
theorem qualified_ident_longest_prefix_wins (s1 s2 s3 : String)
    (bs : List (String × CelVal)) :
    (∀ v, qbLookup bs (joinSegs [s1, s2, s3]) = some v →
      evalQualifiedIdent [s1, s2, s3] none bs = some v) ∧
    (qbLookup bs (joinSegs [s1, s2, s3]) = none →
      ∀ v, qbLookup bs (joinSegs [s1, s2]) = some v →
        evalQualifiedIdent [s1, s2, s3] none bs = celSelect (some v) s3) ∧
    (qbLookup bs (joinSegs [s1, s2, s3]) = none →
      qbLookup bs (joinSegs [s1, s2]) = none →
      ∀ v, qbLookup bs s1 = some v →
        evalQualifiedIdent [s1, s2, s3] none bs =
          celSelect (celSelect (some v) s2) s3) ∧
    (qbLookup bs (joinSegs [s1, s2, s3]) = none →
      qbLookup bs (joinSegs [s1, s2]) = none →
      qbLookup bs s1 = none →
      evalQualifiedIdent [s1, s2, s3] none bs = none) := by
  refine ⟨fun v h => ?_, fun h3 v h2 => ?_, fun h3 h2 v h1 => ?_,
    fun h3 h2 h1 => ?_⟩
  · simp [evalQualifiedIdent, buildQualifiedResolutionSem, qualifiedCascade,
      h, applySelects]
  · simp [evalQualifiedIdent, buildQualifiedResolutionSem, qualifiedCascade,
      h3, h2, applySelects]
  · simp [evalQualifiedIdent, buildQualifiedResolutionSem, qualifiedCascade,
      h3, h2, applySelects, resolveBinding_no_container, h1]
  · simp [evalQualifiedIdent, buildQualifiedResolutionSem, qualifiedCascade,
      h3, h2, applySelects, resolveBinding_no_container, h1, celSelect]

/-- Witness for C3, the spec's concrete instance: with bindings
`{"a.b.c": 1, "a.b": 2, "a": {b: {c: 3}}}` the expression `a.b.c`
evaluates to int 1. -/
theorem qualified_ident_longest_prefix_wins_witness :
    evalQualifiedIdent ["a", "b", "c"] none
      [("a.b.c", .vint 1), ("a.b", .vint 2),
       ("a", .vobj [("b", .vobj [("c", .vint 3)])])] = some (.vint 1) :=
  (qualified_ident_longest_prefix_wins "a" "b" "c"
    [("a.b.c", .vint 1), ("a.b", .vint 2),
     ("a", .vobj [("b", .vobj [("c", .vint 3)])])]).1 (.vint 1) rfl

-- ── C5: integer overflow yields the error sentinel ───────────────────────

/-- C5: int addition, subtraction, multiplication and negation return the
error sentinel whenever the mathematical result is outside
`[-2^63, 2^63-1]` (and the wrapped exact result when in range); likewise
uint addition, subtraction and multiplication against `[0, 2^64-1]`. In
particular `9223372036854775807 + 1` reaches the API boundary as a thrown
`CelError`. -/
theorem int_arith_overflow_is_error (a b : ℤ) :
    (inInt64Range (a + b) = false →
      celAdd (some (.vint a)) (some (.vint b)) = none) ∧
    (inInt64Range (a + b) = true →
      celAdd (some (.vint a)) (some (.vint b)) = some (.vint (a + b))) ∧
    (inInt64Range (a - b) = false →
      celSub (some (.vint a)) (some (.vint b)) = none) ∧
    (inInt64Range (a - b) = true →
      celSub (some (.vint a)) (some (.vint b)) = some (.vint (a - b))) ∧
    (inInt64Range (a * b) = false →
      celMul (some (.vint a)) (some (.vint b)) = none) ∧
    (inInt64Range (a * b) = true →
      celMul (some (.vint a)) (some (.vint b)) = some (.vint (a * b))) ∧
    (inInt64Range (-a) = false → celNeg (some (.vint a)) = none) ∧
    (inInt64Range (-a) = true → celNeg (some (.vint a)) = some (.vint (-a))) ∧
    (inUint64Range (a + b) = false →
      celAdd (some (.vuint a)) (some (.vuint b)) = none) ∧
    (inUint64Range (a + b) = true →
      celAdd (some (.vuint a)) (some (.vuint b)) = some (.vuint (a + b))) ∧
    (inUint64Range (a - b) = false →
      celSub (some (.vuint a)) (some (.vuint b)) = none) ∧
    (inUint64Range (a - b) = true →
      celSub (some (.vuint a)) (some (.vuint b)) = some (.vuint (a - b))) ∧
    (inUint64Range (a * b) = false →
      celMul (some (.vuint a)) (some (.vuint b)) = none) ∧
    (inUint64Range (a * b) = true →
      celMul (some (.vuint a)) (some (.vuint b)) = some (.vuint (a * b))) ∧
    evaluate (fun _ _ => celAdd (some (.vint 9223372036854775807))
        (some (.vint 1))) [] none [] = .error celErrorMessage := by
  refine ⟨fun h => ?_, fun h => ?_, fun h => ?_, fun h => ?_, fun h => ?_,
    fun h => ?_, fun h => ?_, fun h => ?_, fun h => ?_, fun h => ?_,
    fun h => ?_, fun h => ?_, fun h => ?_, fun h => ?_, ?_⟩ <;>
    simp [celAdd, celSub, celMul, celNeg, evaluate, *]
  rfl

/-- Witness for C5: `int64-max + 1` overflows to the sentinel. -/
theorem int_arith_overflow_is_error_witness :
    inInt64Range (9223372036854775807 + 1) = false ∧
    celAdd (some (.vint 9223372036854775807)) (some (.vint 1)) = none :=
  ⟨by decide,
   (int_arith_overflow_is_error 9223372036854775807 1).1 (by decide)⟩

-- ── C6: cross-type numeric equality does not require dyn ─────────────────

set_option maxRecDepth 4096 in
/-- C6 counterexample: the claim says `1 == 1.0` evaluates to `CelError`,
but the runtime's `celEq` compares any two numerics by mathematical value —
`dyn` is the identity and changes nothing — so the compiled `1 == 1.0`
returns `true` from `evaluate` instead of throwing. -/
theorem int_double_eq_true_counterexample :
    evaluate (fun _ _ =>
        (celEq (some (.vint 1)) (some (.vdouble (.fin 1)))).map .vbool)
      [] none [] = .ok (.vbool true) := by
  have hnum : numericCompare (.vint 1) (.vdouble (.fin 1)) = some 0 := by
    decide
  have h : celEq (some (.vint 1)) (some (.vdouble (.fin 1))) = some true := by
    unfold celEq celEqV
    simp [isNull, jsStrictEq, isStr, isBool, isNumeric, isInt, isCelUint,
      isDouble, hnum]
  simp [evaluate, h]

set_option maxRecDepth 4096 in
/-- C6 amended: cross-type numeric equality succeeds with or without `dyn`:
`1 == 1.0` and `dyn(1) == 1.0` both evaluate to true; `dyn` is the identity
and never changes the result of `==`. -/
theorem cross_numeric_eq_ignores_dyn (a b : JsVal) :
    celDyn a = a ∧
    celEq (celDyn a) b = celEq a b ∧
    celEq (some (.vint 1)) (some (.vdouble (.fin 1))) = some true ∧
    celEq (celDyn (some (.vint 1))) (some (.vdouble (.fin 1))) = some true := by
  have hnum : numericCompare (.vint 1) (.vdouble (.fin 1)) = some 0 := by
    decide
  have h : celEq (some (.vint 1)) (some (.vdouble (.fin 1))) = some true := by
    unfold celEq celEqV
    simp [isNull, jsStrictEq, isStr, isBool, isNumeric, isInt, isCelUint,
      isDouble, hnum]
  exact ⟨rfl, rfl, h, h⟩

-- ── C7: exact-integer comparison, double conversion at the boundary ──────

lemma numericCompare_int_uint (a b : ℤ) :
    numericCompare (.vint a) (.vuint b) =
      some (if a < b then -1 else if b < a then 1 else 0) := by
  simp [numericCompare, exactIntVal]

lemma numericCompare_uint_int (a b : ℤ) :
    numericCompare (.vuint a) (.vint b) =
      some (if a < b then -1 else if b < a then 1 else 0) := by
  simp [numericCompare, exactIntVal]

lemma numericCompare_uint_uint (a b : ℤ) :
    numericCompare (.vuint a) (.vuint b) =
      some (if a < b then -1 else if b < a then 1 else 0) := by
  simp [numericCompare, exactIntVal]

lemma numericCompare_int_int (a b : ℤ) :
    numericCompare (.vint a) (.vint b) =
      some (if a < b then -1 else if b < a then 1 else 0) := by
  simp [numericCompare, exactIntVal]

lemma celLt_int_uint (a b : ℤ) :
    celLt (some (.vint a)) (some (.vuint b)) = some (decide (a < b)) := by
  simp [celLt, isNumeric, isInt, isCelUint, isDouble, numericCompare_int_uint]
  rcases lt_trichotomy a b with h | h | h <;> simp [h] <;> omega

lemma celLt_uint_int (a b : ℤ) :
    celLt (some (.vuint a)) (some (.vint b)) = some (decide (a < b)) := by
  simp [celLt, isNumeric, isInt, isCelUint, isDouble, numericCompare_uint_int]
  rcases lt_trichotomy a b with h | h | h <;> simp [h] <;> omega

lemma celLt_uint_uint (a b : ℤ) :
    celLt (some (.vuint a)) (some (.vuint b)) = some (decide (a < b)) := by
  simp [celLt, isNumeric, isInt, isCelUint, isDouble, numericCompare_uint_uint]
  rcases lt_trichotomy a b with h | h | h <;> simp [h] <;> omega

lemma celLe_int_int (a b : ℤ) :
    celLe (some (.vint a)) (some (.vint b)) = some (decide (a ≤ b)) := by
  simp [celLe]

lemma celLe_int_uint (a b : ℤ) :
    celLe (some (.vint a)) (some (.vuint b)) = some (decide (a ≤ b)) := by
  simp [celLe, isNumeric, isInt, isCelUint, isDouble, numericCompare_int_uint]
  rcases lt_trichotomy a b with h | h | h <;> simp [h] <;> omega

lemma celLe_uint_int (a b : ℤ) :
    celLe (some (.vuint a)) (some (.vint b)) = some (decide (a ≤ b)) := by
  simp [celLe, isNumeric, isInt, isCelUint, isDouble, numericCompare_uint_int]
  rcases lt_trichotomy a b with h | h | h <;> simp [h] <;> omega

lemma celLe_uint_uint (a b : ℤ) :
    celLe (some (.vuint a)) (some (.vuint b)) = some (decide (a ≤ b)) := by
  simp [celLe, isNumeric, isInt, isCelUint, isDouble, numericCompare_uint_uint]
  rcases lt_trichotomy a b with h | h | h <;> simp [h] <;> omega

lemma celGt_int_uint (a b : ℤ) :
    celGt (some (.vint a)) (some (.vuint b)) = some (decide (b < a)) := by
  simp [celGt, isNumeric, isInt, isCelUint, isDouble, numericCompare_int_uint]
  rcases lt_trichotomy a b with h | h | h <;> simp [h] <;> omega

lemma celGt_uint_int (a b : ℤ) :
    celGt (some (.vuint a)) (some (.vint b)) = some (decide (b < a)) := by
  simp [celGt, isNumeric, isInt, isCelUint, isDouble, numericCompare_uint_int]
  rcases lt_trichotomy a b with h | h | h <;> simp [h] <;> omega

lemma celGt_uint_uint (a b : ℤ) :
    celGt (some (.vuint a)) (some (.vuint b)) = some (decide (b < a)) := by
  simp [celGt, isNumeric, isInt, isCelUint, isDouble, numericCompare_uint_uint]
  rcases lt_trichotomy a b with h | h | h <;> simp [h] <;> omega

lemma celGe_int_uint (a b : ℤ) :
    celGe (some (.vint a)) (some (.vuint b)) = some (decide (b ≤ a)) := by
  simp [celGe, isNumeric, isInt, isCelUint, isDouble, numericCompare_int_uint]
  rcases lt_trichotomy a b with h | h | h <;> simp [h] <;> omega

lemma celGe_uint_int (a b : ℤ) :
    celGe (some (.vuint a)) (some (.vint b)) = some (decide (b ≤ a)) := by
  simp [celGe, isNumeric, isInt, isCelUint, isDouble, numericCompare_uint_int]
  rcases lt_trichotomy a b with h | h | h <;> simp [h] <;> omega

lemma celGe_uint_uint (a b : ℤ) :
    celGe (some (.vuint a)) (some (.vuint b)) = some (decide (b ≤ a)) := by
  simp [celGe, isNumeric, isInt, isCelUint, isDouble, numericCompare_uint_uint]
  rcases lt_trichotomy a b with h | h | h <;> simp [h] <;> omega

lemma celEqV_int_int (a b : ℤ) :
    celEqV (.vint a) (.vint b) = some (decide (a = b)) := by
  by_cases hab : a = b
  · subst hab
    unfold celEqV
    simp [isNull, jsStrictEq]
  · unfold celEqV
    simp [isNull, jsStrictEq, isStr, isBool, isNumeric, isInt, isCelUint,
      isDouble, hab, numericCompare_int_int]
    rcases lt_trichotomy a b with h | h | h <;> simp [h] <;> omega

lemma celEqV_int_uint (a b : ℤ) :
    celEqV (.vint a) (.vuint b) = some (decide (a = b)) := by
  unfold celEqV
  simp [isNull, jsStrictEq, isStr, isBool, isNumeric, isInt, isCelUint,
    isDouble, numericCompare_int_uint]
  have hbeq : ∀ x : ℤ, (x == 0) = decide (x = 0) := fun x => rfl
  rw [hbeq, decide_eq_decide]
  split_ifs <;> constructor <;> intro h <;> first | exact h.elim | omega

lemma celEqV_uint_int (a b : ℤ) :
    celEqV (.vuint a) (.vint b) = some (decide (a = b)) := by
  unfold celEqV
  simp [isNull, jsStrictEq, isStr, isBool, isNumeric, isInt, isCelUint,
    isDouble, numericCompare_uint_int]
  have hbeq : ∀ x : ℤ, (x == 0) = decide (x = 0) := fun x => rfl
  rw [hbeq, decide_eq_decide]
  split_ifs <;> constructor <;> intro h <;> first | exact h.elim | omega

lemma celEqV_uint_uint (a b : ℤ) :
    celEqV (.vuint a) (.vuint b) = some (decide (a = b)) := by
  unfold celEqV
  simp [isNull, jsStrictEq, isStr, isBool, isNumeric, isInt, isCelUint,
    isDouble, numericCompare_uint_uint]
  have hbeq : ∀ x : ℤ, (x == 0) = decide (x = 0) := fun x => rfl
  rw [hbeq, decide_eq_decide]
  split_ifs <;> constructor <;> intro h <;> first | exact h.elim | omega

lemma numericCompare_int_double (i : ℤ) (d : Dbl) :
    numericCompare (.vint i) (.vdouble d) =
      numericCompare (.vdouble (numOfInt i)) (.vdouble d) := by
  simp [numericCompare, exactIntVal, toNumber]

lemma numericCompare_double_int (i : ℤ) (d : Dbl) :
    numericCompare (.vdouble d) (.vint i) =
      numericCompare (.vdouble d) (.vdouble (numOfInt i)) := by
  simp [numericCompare, exactIntVal, toNumber]

lemma numericCompare_uint_double (i : ℤ) (d : Dbl) :
    numericCompare (.vuint i) (.vdouble d) =
      numericCompare (.vdouble (numOfInt i)) (.vdouble d) := by
  simp [numericCompare, exactIntVal, toNumber]

lemma numericCompare_double_uint (i : ℤ) (d : Dbl) :
    numericCompare (.vdouble d) (.vuint i) =
      numericCompare (.vdouble d) (.vdouble (numOfInt i)) := by
  simp [numericCompare, exactIntVal, toNumber]

lemma celLt_int_double (i : ℤ) (d : Dbl) :
    celLt (some (.vint i)) (some (.vdouble d)) =
      celLt (some (.vdouble (numOfInt i))) (some (.vdouble d)) := by
  simp [celLt, isNumeric, isInt, isCelUint, isDouble, numericCompare_int_double]

lemma celEqV_int_double (i : ℤ) (d : Dbl) :
    celEqV (.vint i) (.vdouble d) =
      some (numericCompare (.vint i) (.vdouble d) == some 0) := by
  unfold celEqV
  simp [isNull, jsStrictEq, isStr, isBool, isNumeric, isInt, isCelUint,
    isDouble]

set_option maxRecDepth 8192 in
lemma numOfInt_pow53_collision : numOfInt (2 ^ 53 + 1) = numOfInt (2 ^ 53) := by
  decide

/-- C7: for every combination of exact integer operands (int and uint), the
comparison operators and numeric equality are decided by arbitrary-precision
integer comparison — no precision loss is possible; when an operand is a
double, the integer operand is converted to double (`Number(bigint)`,
round-to-nearest) and the pair is compared as doubles. Near `2^53` the
double images of `2^53` and `2^53 + 1` collide, yet the exact-integer
comparison distinguishes them. -/
theorem numeric_comparison_exact_and_double_conversion (a b i : ℤ) (d : Dbl) :
    (celLt (some (.vint a)) (some (.vint b)) = some (decide (a < b)) ∧
     celLt (some (.vint a)) (some (.vuint b)) = some (decide (a < b)) ∧
     celLt (some (.vuint a)) (some (.vint b)) = some (decide (a < b)) ∧
     celLt (some (.vuint a)) (some (.vuint b)) = some (decide (a < b))) ∧
    (celLe (some (.vint a)) (some (.vint b)) = some (decide (a ≤ b)) ∧
     celLe (some (.vint a)) (some (.vuint b)) = some (decide (a ≤ b)) ∧
     celLe (some (.vuint a)) (some (.vint b)) = some (decide (a ≤ b)) ∧
     celLe (some (.vuint a)) (some (.vuint b)) = some (decide (a ≤ b))) ∧
    (celGt (some (.vint a)) (some (.vint b)) = some (decide (b < a)) ∧
     celGt (some (.vint a)) (some (.vuint b)) = some (decide (b < a)) ∧
     celGt (some (.vuint a)) (some (.vint b)) = some (decide (b < a)) ∧
     celGt (some (.vuint a)) (some (.vuint b)) = some (decide (b < a))) ∧
    (celGe (some (.vint a)) (some (.vint b)) = some (decide (b ≤ a)) ∧
     celGe (some (.vint a)) (some (.vuint b)) = some (decide (b ≤ a)) ∧
     celGe (some (.vuint a)) (some (.vint b)) = some (decide (b ≤ a)) ∧
     celGe (some (.vuint a)) (some (.vuint b)) = some (decide (b ≤ a))) ∧
    (celEq (some (.vint a)) (some (.vint b)) = some (decide (a = b)) ∧
     celEq (some (.vint a)) (some (.vuint b)) = some (decide (a = b)) ∧
     celEq (some (.vuint a)) (some (.vint b)) = some (decide (a = b)) ∧
     celEq (some (.vuint a)) (some (.vuint b)) = some (decide (a = b))) ∧
    (numericCompare (.vint i) (.vdouble d) =
       numericCompare (.vdouble (numOfInt i)) (.vdouble d) ∧
     numericCompare (.vdouble d) (.vint i) =
       numericCompare (.vdouble d) (.vdouble (numOfInt i)) ∧
     numericCompare (.vuint i) (.vdouble d) =
       numericCompare (.vdouble (numOfInt i)) (.vdouble d) ∧
     numericCompare (.vdouble d) (.vuint i) =
       numericCompare (.vdouble d) (.vdouble (numOfInt i)) ∧
     celLt (some (.vint i)) (some (.vdouble d)) =
       celLt (some (.vdouble (numOfInt i))) (some (.vdouble d)) ∧
     celEq (some (.vint i)) (some (.vdouble d)) =
       some (numericCompare (.vint i) (.vdouble d) == some 0)) ∧
    (numOfInt (2 ^ 53 + 1) = numOfInt (2 ^ 53) ∧
     celEq (some (.vint (2 ^ 53 + 1))) (some (.vuint (2 ^ 53))) = some false ∧
     celGt (some (.vint (2 ^ 53 + 1))) (some (.vuint (2 ^ 53))) = some true) := by
  refine ⟨⟨by simp [celLt], celLt_int_uint a b, celLt_uint_int a b,
      celLt_uint_uint a b⟩,
    ⟨celLe_int_int a b, celLe_int_uint a b, celLe_uint_int a b,
      celLe_uint_uint a b⟩,
    ⟨by simp [celGt], celGt_int_uint a b, celGt_uint_int a b,
      celGt_uint_uint a b⟩,
    ⟨by simp [celGe], celGe_int_uint a b, celGe_uint_int a b,
      celGe_uint_uint a b⟩,
    ⟨by simp [celEq, celEqV_int_int], by simp [celEq, celEqV_int_uint],
      by simp [celEq, celEqV_uint_int], by simp [celEq, celEqV_uint_uint]⟩,
    ⟨numericCompare_int_double i d, numericCompare_double_int i d,
      numericCompare_uint_double i d, numericCompare_double_uint i d,
      celLt_int_double i d, by simp [celEq, celEqV_int_double]⟩,
    numOfInt_pow53_collision, ?_, ?_⟩
  · simp [celEq, celEqV_int_uint]
  · simp [celGt_int_uint]

-- ── C8: int(string) — what the host's BigInt parser accepts ──────────────

/-- C8 counterexample: the claim says `int("0x1A")` yields an error, but
`celToInt` parses strings with the host's `BigInt(string)`, which accepts
`0x`-prefixed hex — the conversion returns int 26 and `evaluate` returns it
instead of throwing. -/
theorem int_of_hex_string_parses_counterexample :
    celToInt (some (.vstr "0x1A")) = some (.vint 26) ∧
    evaluate (fun _ _ => celToInt (some (.vstr "0x1A"))) [] none []
      = .ok (.vint 26) := by
  constructor <;> rfl

/-- C8 amended: `int(string)` parses with the host's `BigInt(string)`:
signed decimal and unsigned `0x`/`0o`/`0b` radix forms are accepted (hex
included), scientific notation, fractions and garbage are errors, and an
accepted value outside the int64 range is an error. -/
theorem celToInt_string_bigint_semantics :
    celToInt (some (.vstr "0x1A")) = some (.vint 26) ∧
    celToInt (some (.vstr "1e3")) = none ∧
    celToInt (some (.vstr "1.5")) = none ∧
    celToInt (some (.vstr "42")) = some (.vint 42) ∧
    celToInt (some (.vstr "-42")) = some (.vint (-42)) ∧
    celToInt (some (.vstr "+7")) = some (.vint 7) ∧
    celToInt (some (.vstr "0b101")) = some (.vint 5) ∧
    celToInt (some (.vstr "0o17")) = some (.vint 15) ∧
    celToInt (some (.vstr "abc")) = none ∧
    celToInt (some (.vstr "0x")) = none ∧
    celToInt (some (.vstr "-0x1A")) = none ∧
    celToInt (some (.vstr "9223372036854775807"))
      = some (.vint 9223372036854775807) ∧
    celToInt (some (.vstr "9223372036854775808")) = none ∧
    celToInt (some (.vstr "-9223372036854775808"))
      = some (.vint (-9223372036854775808)) ∧
    celToInt (some (.vstr "-9223372036854775809")) = none := by
  refine ⟨rfl, rfl, rfl, rfl, rfl, rfl, rfl, rfl, rfl, rfl, rfl, rfl, rfl,
    rfl, rfl⟩

-- ── C9: the no-duplicate-keys invariant and its mapInsert escape ─────────

/-- No two keys of the entry list are equal under CEL value-equality. -/
def keysCelEqDistinct (es : List (CelVal × CelVal)) : Prop :=
  es.Pairwise (fun e1 e2 => celEqV e1.1 e2.1 ≠ some true)

lemma celEqV_int_uint_one : celEqV (.vint 1) (.vuint 1) = some true := by
  simpa using celEqV_int_uint 1 1

lemma jsMapSet_distinct {m : List (CelVal × CelVal)} {k v : CelVal}
    (hm : keysCelEqDistinct m)
    (h2 : m.any (fun e => celEqV e.1 k == some true) = false) :
    keysCelEqDistinct (jsMapSet m k v) := by
  unfold keysCelEqDistinct jsMapSet
  split_ifs with hs
  · rw [List.pairwise_map]
    refine hm.imp ?_
    intro e1 e2 hne
    by_cases b1 : jsSameValueZero e1.1 k <;>
      by_cases b2 : jsSameValueZero e2.1 k <;> simp [b1, b2, hne]
  · rw [List.pairwise_append]
    refine ⟨hm, List.pairwise_singleton _ _, ?_⟩
    intro e1 he1 e2 he2
    simp only [List.mem_singleton] at he2
    subst he2
    have h3 := List.any_eq_false.mp h2 e1 he1
    simpa using h3

lemma celMakeMapGo_distinct (entries : List (CelVal × CelVal)) :
    ∀ m r, celMakeMapGo entries m = some (.vmap r) →
      keysCelEqDistinct m → keysCelEqDistinct r := by
  induction entries with
  | nil =>
    intro m r h hm
    simp only [celMakeMapGo, Option.some.injEq, CelVal.vmap.injEq] at h
    exact h ▸ hm
  | cons e rest ih =>
    intro m r h hm
    obtain ⟨k, v⟩ := e
    by_cases h1 : (isDouble k || isNull k) = true
    · simp [celMakeMapGo, h1] at h
    · by_cases h2 : (m.any (fun e => celEqV e.1 k == some true)) = true
      · simp [celMakeMapGo, h1, h2] at h
      · simp only [celMakeMapGo, h1, h2, Bool.false_eq_true, if_false] at h
        exact ih (jsMapSet m k v) r h
          (jsMapSet_distinct hm (Bool.not_eq_true _ ▸ h2))

/-- C9 amended: a map *literal* never contains two keys equal under CEL
value-equality — `celMakeMap` rejects double and null keys and any key
`celEq`-equal to an earlier one, and every map it returns has pairwise
`celEq`-distinct keys. `celMapInsert`, however, checks only host key
identity, so comprehension-driven map building can produce a map carrying
two CEL-equal keys (int 2 and uint 2). -/
theorem makeMap_distinct_mapInsert_not :
    (∀ entries m, celMakeMap entries = some (.vmap m) → keysCelEqDistinct m) ∧
    celMakeMap [(.vdouble (.fin 1), .vint 1)] = none ∧
    celMakeMap [(.vnull, .vint 1)] = none ∧
    celMakeMap [(.vint 1, .vint 1), (.vuint 1, .vint 2)] = none ∧
    celMapInsert (some (.vmap [(.vint 2, .vint 10)])) (some (.vuint 2))
      (some (.vint 20))
      = some (.vmap [(.vint 2, .vint 10), (.vuint 2, .vint 20)]) := by
  refine ⟨?_, rfl, rfl, ?_, rfl⟩
  · intro entries m h
    exact celMakeMapGo_distinct entries [] m h List.Pairwise.nil
  · simp [celMakeMap, celMakeMapGo, isDouble, isNull, jsMapSet,
      jsSameValueZero, jsStrictEq, celEqV_int_uint_one]

/-- Witness for C9 (amended): a concrete one-entry literal is built and its
keys are pairwise distinct under CEL equality. -/
theorem makeMap_distinct_mapInsert_not_witness :
    keysCelEqDistinct [(.vint 1, .vint 5)] :=
  makeMap_distinct_mapInsert_not.1 [(.vint 1, .vint 5)] [(.vint 1, .vint 5)]
    rfl

/-- C9 counterexample: the claim says every map-producing operation
preserves the no-duplicate-keys invariant, but `celMapInsert` inserts
uint 1 into a map already keyed by int 1 — two keys that are equal under
CEL value-equality — producing a two-entry map that violates the
invariant. -/
theorem mapInsert_celEq_duplicate_counterexample :
    celMapInsert (some (.vmap [(.vint 1, .vint 10)])) (some (.vuint 1))
      (some (.vint 20))
      = some (.vmap [(.vint 1, .vint 10), (.vuint 1, .vint 20)]) ∧
    celEq (some (.vint 1)) (some (.vuint 1)) = some true ∧
    ¬ keysCelEqDistinct [(.vint 1, .vint 10), (.vuint 1, .vint 20)] := by
  refine ⟨rfl, by simpa [celEq] using celEqV_int_uint_one, ?_⟩
  intro h
  have := (List.pairwise_cons.mp h).1 (.vuint 1, .vint 20) (by simp)
  exact this celEqV_int_uint_one

-- ── C10: binding discovery loses identifiers inside comprehension bodies ─

/-- The loop step of the parser's expansion of `[1,2,3].all(x, x < y)`:
`__result__ && (x < y)`, which references the outer binding `y`. -/
def allMacroStep : CExpr :=
  .call "_&&_" none [.ident "__result__",
    .call "_<_" none [.ident "x", .ident "y"]]

/-- The full comprehension the parser produces for `[1,2,3].all(x, x < y)`
(§4.1 of the spec): iteration variable `x`, accumulator `__result__`
initialized to `true`, loop condition `@not_strictly_false(__result__)`,
the step `allMacroStep`, result `__result__`. -/
def allMacroComprehension : CExpr :=
  .comprehension "x" none
    (.createList [.intLit 1, .intLit 2, .intLit 3]) "__result__"
    (.boolLit true)
    (.call "@not_strictly_false" none [.ident "__result__"])
    allMacroStep
    (.ident "__result__")

/-- C10 failing input: for `[1,2,3].all(x, x < y)` the transformer's
binding manifest is empty — the free identifier `y`, referenced only inside
the comprehension body, is discovered into the discarded inner set (second
conjunct) and never reaches the manifest, so the emitted function refers to
`y` without receiving it as a parameter. The comprehension-local `x` and
`__result__` are rightly absent. -/
theorem comprehension_body_identifier_lost :
    bindingManifest allMacroComprehension = [] ∧
    discoverBindings allMacroStep ["x", "__result__"]
      = ["x", "__result__", "y"] := by
  constructor <;> rfl


end Cel2Js
